import Mathlib

/-!
Verification of the conversion engine of the `colstodian` color library.

The development shallowly embeds the parts of the library that the checked
properties are about:

* the raw vector payloads (`glam::Vec3` / `glam::Vec4`), modelled over `ℚ`
  (an idealized, exact model of the `f32` arithmetic of the source; note
  that division by zero yields `0` here where IEEE arithmetic yields
  `inf`/`NaN` — the places where this matters are called out at the
  relevant theorems);
* the three-stage conversion drivers (`Color::convert` in `src/color.rs`
  and in `src/details/color.rs`);
* the alpha-state algebra (`src/alpha_states.rs`, `src/traits.rs`) and the
  alpha-carrying conversion driver (`src/color/color_alpha.rs`);
* the concrete alpha-compositing encoding `LinearSrgbAPremultiplied` and a
  few further encodings from `src/details/encodings.rs`;
* the dynamically tagged `DynamicColor` with its runtime checks
  (`src/color.rs`, `dyn_col` module);
* the Lottes tonemapper parameter baking (`src/tonemap.rs`).

External collaborator code (the `kolor` color-science library: transfer
functions, basis-change matrices, `ColorConversion`) is not part of this
repository; it is represented by explicitly quantified function parameters
(`eotf`, `oetf`, `kolorConversion`, `powf`, ...), exactly in the positions
where the source calls into it.
-/

namespace Colstodian

/-- Model of `glam::Vec3`: a three-component vector. -/
structure Vec3 where
  x : ℚ
  y : ℚ
  z : ℚ
deriving DecidableEq

/-- Model of `glam::Vec4`: a four-component vector. -/
structure Vec4 where
  x : ℚ
  y : ℚ
  z : ℚ
  w : ℚ
deriving DecidableEq

/-- Componentwise `Vec3 * f32` (glam scalar multiply). -/
def Vec3.smul (v : Vec3) (s : ℚ) : Vec3 :=
  ⟨v.x * s, v.y * s, v.z * s⟩

/-- Componentwise `Vec3 / f32` (glam scalar divide). -/
def Vec3.divScalar (v : Vec3) (s : ℚ) : Vec3 :=
  ⟨v.x / s, v.y / s, v.z / s⟩

/-- `glam::Vec3::extend`: append a fourth component. -/
def Vec3.extend (v : Vec3) (w : ℚ) : Vec4 :=
  ⟨v.x, v.y, v.z, w⟩

/-- `glam::Vec4Swizzles::xyz`: drop the fourth component. -/
def Vec4.xyz (v : Vec4) : Vec3 :=
  ⟨v.x, v.y, v.z⟩

/-- Componentwise `Vec4 + Vec4`. -/
def Vec4.add (a b : Vec4) : Vec4 :=
  ⟨a.x + b.x, a.y + b.y, a.z + b.z, a.w + b.w⟩

/-- Componentwise `Vec4 * f32` (glam scalar multiply). -/
def Vec4.smul (v : Vec4) (s : ℚ) : Vec4 :=
  ⟨v.x * s, v.y * s, v.z * s, v.w * s⟩

/-- `DynamicState` from `src/states.rs`: Scene- or Display-referred. -/
inductive DynamicState where
  | scene
  | display
deriving DecidableEq

/-- `DynamicAlphaState` from `src/alpha_states.rs`. -/
inductive DynamicAlphaState where
  | premultiplied
  | separate
deriving DecidableEq

/-- The alpha-state conversion dispatch of the statically typed API.

`src/alpha_states.rs` provides `ConvertFromAlphaRaw<Separate> for
Premultiplied` (`raw * alpha`) and `ConvertFromAlphaRaw<Premultiplied> for
Separate` (`raw / alpha` guarded by `alpha != 0.0`), and `src/traits.rs`
provides the blanket `impl<T> ConvertFromAlphaRaw<T> for T` returning `raw`
unchanged. The four trait-resolution outcomes become a four-way match. -/
def convertFromAlphaRaw (src dst : DynamicAlphaState) (raw : Vec3) (alpha : ℚ) : Vec3 :=
  match src, dst with
  | DynamicAlphaState.separate, DynamicAlphaState.premultiplied => raw.smul alpha
  | DynamicAlphaState.premultiplied, DynamicAlphaState.separate =>
      if alpha ≠ 0 then raw.divScalar alpha else raw
  | DynamicAlphaState.separate, DynamicAlphaState.separate => raw
  | DynamicAlphaState.premultiplied, DynamicAlphaState.premultiplied => raw

/-- The per-ordered-pair conversion hooks of `trait ConvertFromRaw` in
`src/traits.rs`: one source (decode) transform, one linear basis-change
step, one destination (encode) transform. Each declared `(Src, Dst)` pair
in `src/spaces.rs` instantiates these three functions. -/
structure ConvertFromRaw where
  src_transform_raw : Vec3 → Vec3
  linear_part_raw : Vec3 → Vec3
  dst_transform_raw : Vec3 → Vec3

/-- `Color<Spc, St>` from `src/color.rs`: a raw `Vec3` payload with two
phantom type tags. -/
structure Color (Spc St : Type) where
  raw : Vec3

/-- `Color::convert` from `src/color.rs` (lines 126-132): apply the three
`ConvertFromRaw` hooks of the declared `(SrcSpace, DstSpace)` pair in
sequence to the raw payload. -/
def Color.convert {SrcSpace St DstSpace : Type} (T : ConvertFromRaw)
    (c : Color SrcSpace St) : Color DstSpace St :=
  let raw := c.raw
  let raw := T.src_transform_raw raw
  let raw := T.linear_part_raw raw
  let raw := T.dst_transform_raw raw
  ⟨raw⟩

/-- `Color::cast_space` from `src/color.rs`. -/
def Color.cast_space {Spc St DstSpace : Type} (c : Color Spc St) : Color DstSpace St :=
  ⟨c.raw⟩

/-- `Color::cast_state` from `src/color.rs`. -/
def Color.cast_state {Spc St DstSt : Type} (c : Color Spc St) : Color Spc DstSt :=
  ⟨c.raw⟩

/-- `Color::cast` from `src/color.rs`. -/
def Color.cast {Spc St DstSpace DstSt : Type} (c : Color Spc St) : Color DstSpace DstSt :=
  ⟨c.raw⟩

/-- `ColorAlpha<Spc, St, A>` from `src/color/color_alpha.rs`: a raw `Vec4`
payload with three phantom type tags. -/
structure ColorAlpha (Spc St A : Type) where
  raw : Vec4

/-- `ColorAlpha::convert` from `src/color/color_alpha.rs` (lines 138-156).

The space hooks come from the declared `ConvertFromRaw` pair; the alpha
hops are the trait dispatches `SrcAlpha -> Separate` and
`Separate -> DstAlpha`, here passed as the two `DynamicAlphaState`
values that the phantom types `SrcAlpha`/`DstAlpha` denote. -/
def ColorAlpha.convert {SrcSpace St SrcAlpha DstSpace DstAlpha : Type}
    (T : ConvertFromRaw) (srcA dstA : DynamicAlphaState)
    (c : ColorAlpha SrcSpace St SrcAlpha) : ColorAlpha DstSpace St DstAlpha :=
  let alpha := c.raw.w
  let linear := T.src_transform_raw c.raw.xyz
  let separated := convertFromAlphaRaw srcA DynamicAlphaState.separate linear alpha
  let dst_linear := T.linear_part_raw separated
  let dst_alpha := convertFromAlphaRaw DynamicAlphaState.separate dstA dst_linear alpha
  let dst := T.dst_transform_raw dst_alpha
  ⟨dst.extend alpha⟩

/-- `ColorAlpha::cast_space` from `src/color/color_alpha.rs`. -/
def ColorAlpha.cast_space {Spc St A DstSpace : Type} (c : ColorAlpha Spc St A) :
    ColorAlpha DstSpace St A :=
  ⟨c.raw⟩

/-- `ColorAlpha::cast_alpha_state` from `src/color/color_alpha.rs`. -/
def ColorAlpha.cast_alpha_state {Spc St A DstAlpha : Type} (c : ColorAlpha Spc St A) :
    ColorAlpha Spc St DstAlpha :=
  ⟨c.raw⟩

/-- `ColorAlpha::cast_state` from `src/color/color_alpha.rs`. -/
def ColorAlpha.cast_state {Spc St A DstSt : Type} (c : ColorAlpha Spc St A) :
    ColorAlpha Spc DstSt A :=
  ⟨c.raw⟩

/-- `ColorAlpha::cast` from `src/color/color_alpha.rs`. -/
def ColorAlpha.cast {Spc St A DstSpace DstSt DstAlpha : Type} (c : ColorAlpha Spc St A) :
    ColorAlpha DstSpace DstSt DstAlpha :=
  ⟨c.raw⟩

/-- `ColorAlpha::premultiply` from `src/color_alpha.rs` (lines 183-188),
acting on the raw `Vec4`. -/
def ColorAlpha.premultiplyRaw (c : Vec4) : Vec4 :=
  (c.xyz.smul c.w).extend c.w

/-- `ColorAlpha::separate` from `src/color_alpha.rs` (lines 190-202),
acting on the raw `Vec4`: divide the color components by alpha unless
alpha is zero, in which case leave them unchanged. -/
def ColorAlpha.separateRaw (c : Vec4) : Vec4 :=
  let col := if c.w ≠ 0 then c.xyz.divScalar c.w else c.xyz
  col.extend c.w

end Colstodian

namespace Colstodian.Details

open Colstodian

/-- `trait ColorEncoding` from `src/details/traits.rs`, restricted to the
two conversion hooks the driver uses: decode the repr into the encoding's
linear space plus a separate alpha, and encode a linear-space vector plus
alpha back into the repr. -/
structure ColorEncoding (R : Type) where
  src_transform_raw : R → Vec3 × ℚ
  dst_transform_raw : Vec3 → ℚ → R

/-- `Color<E>` from `src/details/color.rs`: the raw repr with a phantom
encoding tag. -/
structure EColor (E R : Type) where
  repr : R

/-- `Color::cast` from `src/details/color.rs` (lines 170-176): requires the
destination encoding to use the same `Repr` type. -/
def EColor.cast {E R DstEnc : Type} (c : EColor E R) : EColor DstEnc R :=
  ⟨c.repr⟩

/-- `Color::convert` from `src/details/color.rs` (lines 146-168).

The function first runs the pair's `map_src` hook on a local copy of the
repr (as the source does, note that the source then feeds the *original*
`self.repr` into the source transform, so the hook's output is discarded;
every declared `ConvertFrom` impl in `src/details/encodings.rs` keeps the
default identity `map_src`, so this has no behavioral consequence), then
applies the source transform, the linear basis change of the two
encodings' linear spaces, and the destination transform. -/
def convert {R R2 : Type} (SrcEnc : ColorEncoding R) (DstEnc : ColorEncoding R2)
    (map_src : R → R) (linear_part_raw : Vec3 → Vec3) (selfRepr : R) : R2 :=
  let _repr := map_src selfRepr
  let pair := SrcEnc.src_transform_raw selfRepr
  let raw := linear_part_raw pair.1
  DstEnc.dst_transform_raw raw pair.2

/-- `u8_to_f32` from `src/details/encodings.rs` (lines 13-16):
`x as f32 / 255.0`. -/
def u8_to_f32 (x : ℕ) : ℚ :=
  (x : ℚ) / 255

/-- Rust `f32::clamp(lo, hi)` for ordered rationals. -/
def clamp (x lo hi : ℚ) : ℚ :=
  min (max x lo) hi

/-- `f32_to_u8` from `src/details/encodings.rs` (lines 18-21):
`(x.clamp(0.0, 1.0) * 255.0) as u8`. The Rust `as u8` cast truncates
toward zero; the clamped argument lies in `[0, 255]`, so this is the
floor. -/
def f32_to_u8 (x : ℚ) : ℕ :=
  (Int.floor (clamp x 0 1 * 255)).toNat

/-- `U8Repr` (`[u8; 3]`) from `src/details/reprs.rs`, components as
naturals. -/
structure U8Repr where
  x : ℕ
  y : ℕ
  z : ℕ
deriving DecidableEq

/-- The `LinearSrgb` encoding from `src/details/encodings.rs`
(lines 318-336): both transforms are the identity; no alpha, so the
source transform reports alpha `1`. -/
def LinearSrgb : ColorEncoding Vec3 :=
  ⟨fun repr => (repr, 1), fun raw _ => raw⟩

/-- The `LinearSrgbA` encoding from `src/details/encodings.rs`
(lines 372-390): split off / reattach the separate alpha component. -/
def LinearSrgbA : ColorEncoding Vec4 :=
  ⟨fun repr => (repr.xyz, repr.w), fun raw alpha => raw.extend alpha⟩

/-- The `LinearSrgbAPremultiplied` encoding from
`src/details/encodings.rs` (lines 444-464): the source transform divides
the color components by alpha (unguarded), the destination transform
multiplies them back. -/
def LinearSrgbAPremultiplied : ColorEncoding Vec4 :=
  ⟨fun repr => (repr.xyz.divScalar repr.w, repr.w),
   fun raw alpha => (raw.smul alpha).extend alpha⟩

/-- The `SrgbF32` encoding from `src/details/encodings.rs`
(lines 94-114), parameterized by the external `kolor` transfer functions
`sRGB_eotf` / `sRGB_oetf` (with their `WhitePoint::D65` argument
absorbed). -/
def SrgbF32 (eotf oetf : Vec3 → Vec3) : ColorEncoding Vec3 :=
  ⟨fun repr => (eotf repr, 1), fun raw _ => oetf raw⟩

/-- The `SrgbU8` encoding from `src/details/encodings.rs` (lines 39-66),
parameterized by the external `kolor` transfer functions: bytes map in
through `u8_to_f32` before the EOTF, and the OETF output maps back out
through `f32_to_u8`. -/
def SrgbU8 (eotf oetf : Vec3 → Vec3) : ColorEncoding U8Repr :=
  ⟨fun repr => (eotf ⟨u8_to_f32 repr.x, u8_to_f32 repr.y, u8_to_f32 repr.z⟩, 1),
   fun raw _ =>
     let electro := oetf raw
     ⟨f32_to_u8 electro.x, f32_to_u8 electro.y, f32_to_u8 electro.z⟩⟩

/-- `AlphaOver for LinearSrgbAPremultiplied` from
`src/details/encodings.rs` (lines 476-481):
`over.repr + under.repr * (1.0 - over.repr.w)`. -/
def LinearSrgbAPremultiplied.composite (over under : Vec4) : Vec4 :=
  over.add (under.smul (1 - over.w))

/-- `Color::alpha_over` from `src/details/color.rs` (lines 187-196)
instantiated at the `LinearSrgbAPremultiplied` encoding, where it
delegates to the encoding's `composite`. -/
def alpha_over (over under : Vec4) : Vec4 :=
  LinearSrgbAPremultiplied.composite over under

end Colstodian.Details

namespace Colstodian

/-- `DynamicColor` from `src/color.rs` (`dyn_col` module): a raw `Vec3`
payload together with data-level space and state tags. The space tag type
(`kolor::ColorSpace`) belongs to the external `kolor` crate, so it is kept
as a type parameter here. -/
structure DynamicColor (S : Type) where
  raw : Vec3
  space : S
  state : DynamicState

/-- `DynamicConversionError` from `src/error.rs`. -/
inductive DynamicConversionError (S : Type) where
  | nonlinearConversionInSceneState (src dst : S)
  | stateChangeInNonlinearSpace (space : S) (current requested : DynamicState)
  | tonemapInDisplayState

/-- `DynamicColor::new` from `src/color.rs` (lines 575-579): a plain
constructor storing the given raw components, space, and state. -/
def DynamicColor.new {S : Type} (raw : Vec3) (space : S) (state : DynamicState) :
    DynamicColor S :=
  ⟨raw, space, state⟩

/-- `DynamicColor::convert` from `src/color.rs` (lines 583-598).

`is_linear` stands for `kolor::ColorSpace::is_linear` and
`kolorConversion` for `kolor::ColorConversion::new(src, dst).convert`,
both supplied by the external `kolor` crate. The guard and the resulting
tags are this repository's code, embedded verbatim. -/
def DynamicColor.convert {S : Type} (is_linear : S → Bool)
    (kolorConversion : S → S → Vec3 → Vec3)
    (c : DynamicColor S) (dest_space : S) :
    Except (DynamicConversionError S) (DynamicColor S) :=
  if c.state = DynamicState.scene ∧
      (is_linear c.space = false ∨ is_linear dest_space = false) then
    Except.error (DynamicConversionError.nonlinearConversionInSceneState c.space dest_space)
  else
    Except.ok ⟨kolorConversion c.space dest_space c.raw, dest_space, c.state⟩

/-- `DynamicColor::convert_state` from `src/color.rs` (lines 603-618). -/
def DynamicColor.convert_state {S : Type} (is_linear : S → Bool)
    (c : DynamicColor S) (dest_state : DynamicState) (conversion : Vec3 → Vec3) :
    Except (DynamicConversionError S) (DynamicColor S) :=
  if is_linear c.space = false then
    Except.error
      (DynamicConversionError.stateChangeInNonlinearSpace c.space c.state dest_state)
  else
    Except.ok ⟨conversion c.raw, c.space, dest_state⟩

/-- The invariant the specification asserts for every observable
`DynamicColor`: a Scene-state color must be in a linear space. -/
def sceneImpliesLinear {S : Type} (is_linear : S → Bool) (c : DynamicColor S) : Prop :=
  c.state = DynamicState.scene → is_linear c.space = true

instance {S : Type} (is_linear : S → Bool) (c : DynamicColor S) :
    Decidable (sceneImpliesLinear is_linear c) := by
  unfold sceneImpliesLinear
  infer_instance

/-- `LottesTonemapperParams` from `src/tonemap.rs` (lines 96-113). -/
structure LottesTonemapperParams where
  contrast : ℚ
  shoulder : ℚ
  max_luminance : ℚ
  gray_point_in : ℚ
  gray_point_out : ℚ
  crosstalk : ℚ
  saturation : ℚ
  cross_saturation : ℚ

/-- `BakedLottesTonemapperParams` from `src/tonemap.rs` (lines 137-145). -/
structure BakedLottesTonemapperParams where
  a : ℚ
  b : ℚ
  c : ℚ
  d : ℚ
  crosstalk : ℚ
  saturation : ℚ
  cross_saturation : ℚ

/-- `From<LottesTonemapperParams> for BakedLottesTonemapperParams` from
`src/tonemap.rs` (lines 152-185), embedded verbatim; `powf` stands for
`f32::powf`, which is kept as an explicit function parameter (`f32::powf`
is a libm intrinsic external to the repository). In particular, `gi_ad`
is computed from `gray_point_out`, exactly as in the source. -/
def bakeLottesTonemapperParams (powf : ℚ → ℚ → ℚ) (params : LottesTonemapperParams) :
    BakedLottesTonemapperParams :=
  let a := params.contrast
  let d := params.shoulder
  let gi_a := powf params.gray_point_in a
  let gi_ad := powf params.gray_point_out (a * d)
  let ml_a := powf params.max_luminance a
  let ml_ad := powf params.max_luminance (a * d)
  let denom_rcp := 1 / ((ml_ad - gi_ad) * params.gray_point_out)
  let b := (-gi_a + ml_a * params.gray_point_out) * denom_rcp
  let c := (ml_ad * gi_a - ml_a * gi_ad * params.gray_point_out) * denom_rcp
  ⟨a, b, c, d, params.crosstalk, params.saturation, params.cross_saturation⟩

/-- `LottesTonemapper::tonemap_inner` from `src/tonemap.rs`
(lines 191-197): the parametric curve `z / (z^d * b + c)` with
`z = x^a`. -/
def LottesTonemapper.tonemap_inner (powf : ℚ → ℚ → ℚ) (x : ℚ)
    (params : BakedLottesTonemapperParams) : ℚ :=
  let z := powf x params.a
  z / (powf z params.d * params.b + params.c)

/-- Claim C1: for every declared conversion pair and every input color,
`Color::convert` applies exactly the three stages in order — the source
transform, then the single linear basis-change step, then the destination
transform — and nothing else. The first conjunct covers the driver of
`src/color.rs` (any `ConvertFromRaw` hook triple, hence any declared
pair); the second covers the driver of `src/details/color.rs` (any pair
of `ColorEncoding`s with the pair's `map_src` hook and linear part),
showing the result is always the destination transform of the linear part
of the source transform, with the source transform's alpha threaded
through. -/
theorem c1_convert_applies_three_stages_in_order :
    (∀ (Spc St Dst : Type) (T : ConvertFromRaw) (c : Color Spc St),
      (@Color.convert Spc St Dst T c).raw =
        T.dst_transform_raw (T.linear_part_raw (T.src_transform_raw c.raw))) ∧
    (∀ (R R2 : Type) (SrcEnc : Details.ColorEncoding R)
        (DstEnc : Details.ColorEncoding R2)
        (map_src : R → R) (lin : Vec3 → Vec3) (repr : R),
      Details.convert SrcEnc DstEnc map_src lin repr =
        DstEnc.dst_transform_raw (lin (SrcEnc.src_transform_raw repr).1)
          (SrcEnc.src_transform_raw repr).2) :=
  ⟨fun _ _ _ _ _ => rfl, fun _ _ _ _ _ _ _ => rfl⟩

/-- Claim C4: the alpha-carrying `ColorAlpha::convert` applies, in order,
the source decode transform, the conversion of the source alpha state to
`Separate`, the linear basis change, the conversion from `Separate` to
the destination alpha state, and the destination encode transform, and
the alpha component itself is reattached unchanged. -/
theorem c4_color_alpha_convert_pipeline (SrcSpace St SrcAlpha DstSpace DstAlpha : Type)
    (T : ConvertFromRaw) (srcA dstA : DynamicAlphaState)
    (c : ColorAlpha SrcSpace St SrcAlpha) :
    (@ColorAlpha.convert SrcSpace St SrcAlpha DstSpace DstAlpha T srcA dstA c).raw =
      (T.dst_transform_raw
        (convertFromAlphaRaw DynamicAlphaState.separate dstA
          (T.linear_part_raw
            (convertFromAlphaRaw srcA DynamicAlphaState.separate
              (T.src_transform_raw c.raw.xyz) c.raw.w)) c.raw.w)).extend c.raw.w ∧
    (@ColorAlpha.convert SrcSpace St SrcAlpha DstSpace DstAlpha T srcA dstA c).raw.w =
      c.raw.w :=
  ⟨rfl, rfl⟩

/-- Claim C5: the `Premultiplied -> Separate` conversion divides by alpha
exactly when alpha is nonzero and returns the raw color unchanged when
alpha is zero; `Separate -> Premultiplied` multiplies by alpha; a state
converted to itself is the identity. The last two conjuncts check the
same guarded behavior of `ColorAlpha::separate` from
`src/color_alpha.rs`. -/
theorem c5_alpha_state_conversions (raw : Vec3) (alpha : ℚ) (s : DynamicAlphaState)
    (v : Vec4) :
    (alpha ≠ 0 →
      convertFromAlphaRaw DynamicAlphaState.premultiplied DynamicAlphaState.separate
        raw alpha = raw.divScalar alpha) ∧
    (convertFromAlphaRaw DynamicAlphaState.premultiplied DynamicAlphaState.separate
      raw 0 = raw) ∧
    (convertFromAlphaRaw DynamicAlphaState.separate DynamicAlphaState.premultiplied
      raw alpha = raw.smul alpha) ∧
    (convertFromAlphaRaw s s raw alpha = raw) ∧
    (v.w = 0 → ColorAlpha.separateRaw v = v) ∧
    (v.w ≠ 0 → ColorAlpha.separateRaw v = (v.xyz.divScalar v.w).extend v.w) := by
  refine ⟨fun h => ?_, ?_, rfl, ?_, fun h => ?_, fun h => ?_⟩
  · simp [convertFromAlphaRaw, h]
  · simp [convertFromAlphaRaw]
  · cases s <;> rfl
  · obtain ⟨px, py, pz, pw⟩ := v
    have hw : pw = 0 := h
    subst hw
    simp [ColorAlpha.separateRaw, Vec4.xyz, Vec3.extend]
  · simp [ColorAlpha.separateRaw, h]

/-- Witness for claim C5 at concrete inputs: unpremultiplying `(2,4,6)`
with alpha `2` halves the components, and `separate` on `(2,4,6,2)`
yields `(1,2,3,2)`. -/
theorem c5_witness :
    convertFromAlphaRaw DynamicAlphaState.premultiplied DynamicAlphaState.separate
      ⟨1, 2, 3⟩ 2 = ⟨1/2, 1, 3/2⟩ ∧
    ColorAlpha.separateRaw ⟨2, 4, 6, 2⟩ = ⟨1, 2, 3, 2⟩ := by
  have h := c5_alpha_state_conversions ⟨1, 2, 3⟩ 2 DynamicAlphaState.separate ⟨2, 4, 6, 2⟩
  constructor
  · rw [h.1 (by norm_num)]
    norm_num [Vec3.divScalar]
  · rw [h.2.2.2.2.2 (by norm_num : (2 : ℚ) ≠ 0)]
    norm_num [Vec4.xyz, Vec3.divScalar, Vec3.extend]

/-- Claim C10: every unchecked cast (`cast_space`, `cast_state`, `cast`,
`cast_alpha_state` on `Color` and `ColorAlpha`, and `Color::cast` of the
encoding-based API) returns a color whose raw payload equals the input's
raw payload; only the phantom tags change. -/
theorem c10_casts_preserve_raw :
    (∀ (Spc St DstSpace : Type) (c : Color Spc St),
      (@Color.cast_space Spc St DstSpace c).raw = c.raw) ∧
    (∀ (Spc St DstSt : Type) (c : Color Spc St),
      (@Color.cast_state Spc St DstSt c).raw = c.raw) ∧
    (∀ (Spc St DstSpace DstSt : Type) (c : Color Spc St),
      (@Color.cast Spc St DstSpace DstSt c).raw = c.raw) ∧
    (∀ (E R DstEnc : Type) (c : Details.EColor E R),
      (@Details.EColor.cast E R DstEnc c).repr = c.repr) ∧
    (∀ (Spc St A DstSpace : Type) (c : ColorAlpha Spc St A),
      (@ColorAlpha.cast_space Spc St A DstSpace c).raw = c.raw) ∧
    (∀ (Spc St A DstAlpha : Type) (c : ColorAlpha Spc St A),
      (@ColorAlpha.cast_alpha_state Spc St A DstAlpha c).raw = c.raw) ∧
    (∀ (Spc St A DstSt : Type) (c : ColorAlpha Spc St A),
      (@ColorAlpha.cast_state Spc St A DstSt c).raw = c.raw) ∧
    (∀ (Spc St A DstSpace DstSt DstAlpha : Type) (c : ColorAlpha Spc St A),
      (@ColorAlpha.cast Spc St A DstSpace DstSt DstAlpha c).raw = c.raw) :=
  ⟨fun _ _ _ _ => rfl, fun _ _ _ _ => rfl, fun _ _ _ _ _ => rfl, fun _ _ _ _ => rfl,
   fun _ _ _ _ _ => rfl, fun _ _ _ _ _ => rfl, fun _ _ _ _ _ => rfl,
   fun _ _ _ _ _ _ _ => rfl⟩

/-- Claim C2: `DynamicColor::convert` returns the
`NonlinearConversionInSceneState` error exactly when the color's state is
Scene and the source or destination space is nonlinear (first conjunct:
in that case the error is returned before any conversion is applied, for
every possible external conversion function); otherwise it succeeds with
the converted raw value, the destination space, and the unchanged state
(second conjunct). -/
theorem c2_dynamic_convert_error_iff (S : Type) (is_linear : S → Bool)
    (kolorConversion : S → S → Vec3 → Vec3) (c : DynamicColor S) (d : S) :
    (c.state = DynamicState.scene ∧ (is_linear c.space = false ∨ is_linear d = false) →
      DynamicColor.convert is_linear kolorConversion c d =
        Except.error (DynamicConversionError.nonlinearConversionInSceneState c.space d)) ∧
    (¬(c.state = DynamicState.scene ∧ (is_linear c.space = false ∨ is_linear d = false)) →
      DynamicColor.convert is_linear kolorConversion c d =
        Except.ok ⟨kolorConversion c.space d c.raw, d, c.state⟩) := by
  constructor
  · intro h
    unfold DynamicColor.convert
    rw [if_pos h]
  · intro h
    unfold DynamicColor.convert
    rw [if_neg h]

/-- Witness for claim C2: a Scene-state color in a nonlinear space is
rejected with the typed error, and a Display-state conversion between the
same tags succeeds with destination space and unchanged state. -/
theorem c2_witness :
    DynamicColor.convert (fun b : Bool => b) (fun _ _ v => v)
        ⟨⟨1, 2, 3⟩, false, DynamicState.scene⟩ true =
      Except.error (DynamicConversionError.nonlinearConversionInSceneState false true) ∧
    DynamicColor.convert (fun b : Bool => b) (fun _ _ v => v)
        ⟨⟨1, 2, 3⟩, true, DynamicState.display⟩ true =
      Except.ok ⟨⟨1, 2, 3⟩, true, DynamicState.display⟩ := by
  have h1 := (c2_dynamic_convert_error_iff Bool (fun b => b) (fun _ _ v => v)
      ⟨⟨1, 2, 3⟩, false, DynamicState.scene⟩ true).1
  have h2 := (c2_dynamic_convert_error_iff Bool (fun b => b) (fun _ _ v => v)
      ⟨⟨1, 2, 3⟩, true, DynamicState.display⟩ true).2
  exact ⟨h1 ⟨rfl, Or.inl rfl⟩, h2 (by decide)⟩

/-- Counterexample for claim C3: `DynamicColor::new` accepts a nonlinear
space together with Scene state without any rejection — the constructed
value is observable and violates the invariant `state == Scene implies
space is linear` (here the space tag type is instantiated with `Bool` and
`is_linear` with the identity, so `false` is a nonlinear space). -/
theorem c3_counterexample :
    ¬ sceneImpliesLinear (fun b : Bool => b)
      (DynamicColor.new ⟨0, 0, 0⟩ false DynamicState.scene) := by
  decide

/-- Claim C3, amended: `DynamicColor::new` performs no validation — it
returns exactly the given raw value, space, and state, so a
nonlinear-space Scene-state `DynamicColor` is constructible and
observable. The invariant is instead enforced at operation time:
`convert` rejects a Scene-state conversion whose source space is
nonlinear, and `convert_state` rejects any state change in a nonlinear
space, each with its typed error. -/
theorem c3_dynamic_new_performs_no_validation (S : Type) (is_linear : S → Bool)
    (raw : Vec3) (space : S) (state : DynamicState) :
    DynamicColor.new raw space state = (⟨raw, space, state⟩ : DynamicColor S) ∧
    (∀ (kc : S → S → Vec3 → Vec3) (c : DynamicColor S) (d : S),
      c.state = DynamicState.scene → is_linear c.space = false →
      DynamicColor.convert is_linear kc c d =
        Except.error (DynamicConversionError.nonlinearConversionInSceneState c.space d)) ∧
    (∀ (c : DynamicColor S) (dest_state : DynamicState) (f : Vec3 → Vec3),
      is_linear c.space = false →
      DynamicColor.convert_state is_linear c dest_state f =
        Except.error
          (DynamicConversionError.stateChangeInNonlinearSpace c.space c.state dest_state)) := by
  refine ⟨rfl, ?_, ?_⟩
  · intro kc c d hst hsp
    unfold DynamicColor.convert
    rw [if_pos ⟨hst, Or.inl hsp⟩]
  · intro c dest_state f hsp
    unfold DynamicColor.convert_state
    rw [if_pos hsp]

/-- Witness for the amended claim C3 at concrete inputs. -/
theorem c3_witness :
    DynamicColor.new (⟨7, 8, 9⟩ : Vec3) true DynamicState.display =
      (⟨⟨7, 8, 9⟩, true, DynamicState.display⟩ : DynamicColor Bool) ∧
    DynamicColor.convert (fun b : Bool => b) (fun _ _ v => v)
        ⟨⟨0, 0, 0⟩, false, DynamicState.scene⟩ true =
      Except.error (DynamicConversionError.nonlinearConversionInSceneState false true) ∧
    DynamicColor.convert_state (fun b : Bool => b)
        ⟨⟨0, 0, 0⟩, false, DynamicState.display⟩ DynamicState.scene (fun v => v) =
      Except.error (DynamicConversionError.stateChangeInNonlinearSpace false
        DynamicState.display DynamicState.scene) := by
  have h := c3_dynamic_new_performs_no_validation Bool (fun b => b) ⟨7, 8, 9⟩ true
    DynamicState.display
  exact ⟨h.1, h.2.1 _ _ _ rfl rfl, h.2.2 _ _ _ rfl⟩

/-- Counterexample for claim C6: a zero-alpha `over` whose color
components are nonzero (representable, though not a well-formed
premultiplied color) does not composite to `under`:
`alpha_over((1,2,3,0), (4,5,6,1)) = (5,7,9,1) ≠ (4,5,6,1)`. -/
theorem c6_counterexample :
    Details.alpha_over ⟨1, 2, 3, 0⟩ ⟨4, 5, 6, 1⟩ = ⟨5, 7, 9, 1⟩ ∧
    (⟨5, 7, 9, 1⟩ : Vec4) ≠ ⟨4, 5, 6, 1⟩ := by
  constructor
  · norm_num [Details.alpha_over, Details.LinearSrgbAPremultiplied.composite,
      Vec4.add, Vec4.smul]
  · intro h
    have hx := congrArg Vec4.x h
    norm_num at hx

/-- Claim C6, amended: `alpha_over(over, under)` equals componentwise
`over.repr + under.repr * (1 - over.alpha)`; for every `under`, if
`over.alpha == 1` the composite equals `over` exactly, and if `over` is
the zero vector — the only well-formed fully transparent premultiplied
color, with color components zero as well as alpha — the composite equals
`under` exactly. (A zero-alpha `over` with nonzero color components
yields `under + over.rgb`, not `under`.) -/
theorem c6_alpha_over_composite (over under : Vec4) :
    Details.alpha_over over under =
      ⟨over.x + under.x * (1 - over.w), over.y + under.y * (1 - over.w),
       over.z + under.z * (1 - over.w), over.w + under.w * (1 - over.w)⟩ ∧
    (over.w = 1 → Details.alpha_over over under = over) ∧
    (over = ⟨0, 0, 0, 0⟩ → Details.alpha_over over under = under) := by
  refine ⟨rfl, fun h => ?_, fun h => ?_⟩
  · obtain ⟨ox, oy, oz, ow⟩ := over
    have hw : ow = 1 := h
    subst hw
    simp [Details.alpha_over, Details.LinearSrgbAPremultiplied.composite,
      Vec4.add, Vec4.smul]
  · subst h
    obtain ⟨ux, uy, uz, uw⟩ := under
    simp [Details.alpha_over, Details.LinearSrgbAPremultiplied.composite,
      Vec4.add, Vec4.smul]

/-- Witness for the amended claim C6: an opaque `over` wins outright and a
zero `over` leaves `under` unchanged, at concrete inputs. -/
theorem c6_witness :
    Details.alpha_over ⟨1, 2, 3, 1⟩ ⟨4, 5, 6, 1⟩ = ⟨1, 2, 3, 1⟩ ∧
    Details.alpha_over ⟨0, 0, 0, 0⟩ ⟨4, 5, 6, 1⟩ = ⟨4, 5, 6, 1⟩ := by
  exact ⟨(c6_alpha_over_composite ⟨1, 2, 3, 1⟩ ⟨4, 5, 6, 1⟩).2.1 rfl,
         (c6_alpha_over_composite ⟨0, 0, 0, 0⟩ ⟨4, 5, 6, 1⟩).2.2 rfl⟩

/-- Counterexample for claim C7: converting a `LinearSrgbAPremultiplied`
color with alpha `0` and nonzero color components to its own encoding is
not the identity. The source transform divides the color components by
the zero alpha and the destination transform multiplies them by it again;
in this exact-arithmetic model the components collapse to `0` (in IEEE
`f32` arithmetic they become `inf * 0 = NaN`), and in either semantics the
result does not equal the input `(1,2,3,0)`. -/
theorem c7_counterexample :
    Details.convert Details.LinearSrgbAPremultiplied Details.LinearSrgbAPremultiplied
      id id (⟨1, 2, 3, 0⟩ : Vec4) ≠ ⟨1, 2, 3, 0⟩ := by
  intro h
  have hx := congrArg Vec4.x h
  norm_num [Details.convert, Details.LinearSrgbAPremultiplied, Vec4.xyz,
    Vec3.divScalar, Vec3.smul, Vec3.extend] at hx

/-- Claim C7, amended: converting a color to its own encoding is exactly
the identity whenever the encoding's decode/encode round trip is exact —
unconditionally for `LinearSrgb` and `LinearSrgbA` (whose transforms are
identities), for `LinearSrgbAPremultiplied` whenever the alpha component
is nonzero, and for `SrgbF32` whenever the external OETF exactly inverts
the external EOTF. It fails for premultiplied encodings at alpha zero,
where the unpremultiply/premultiply round trip destroys the color
components. -/
theorem c7_identity_conversion (v3 : Vec3) (v4 : Vec4) (eotf oetf : Vec3 → Vec3) :
    Details.convert Details.LinearSrgb Details.LinearSrgb id id v3 = v3 ∧
    Details.convert Details.LinearSrgbA Details.LinearSrgbA id id v4 = v4 ∧
    (v4.w ≠ 0 →
      Details.convert Details.LinearSrgbAPremultiplied Details.LinearSrgbAPremultiplied
        id id v4 = v4) ∧
    ((∀ u, oetf (eotf u) = u) →
      Details.convert (Details.SrgbF32 eotf oetf) (Details.SrgbF32 eotf oetf)
        id id v3 = v3) := by
  refine ⟨rfl, rfl, fun h => ?_, fun h => h v3⟩
  obtain ⟨px, py, pz, pw⟩ := v4
  have hw : pw ≠ 0 := h
  simp [Details.convert, Details.LinearSrgbAPremultiplied, Vec4.xyz,
    Vec3.divScalar, Vec3.smul, Vec3.extend, div_mul_cancel₀, hw]

/-- Witness for the amended claim C7 at concrete inputs: the premultiplied
identity conversion with nonzero alpha and the `SrgbF32` identity
conversion with inverse transfer functions both return their input. -/
theorem c7_witness :
    Details.convert Details.LinearSrgbAPremultiplied Details.LinearSrgbAPremultiplied
      id id (⟨2, 4, 6, 2⟩ : Vec4) = ⟨2, 4, 6, 2⟩ ∧
    Details.convert (Details.SrgbF32 id id) (Details.SrgbF32 id id) id id
      (⟨1, 2, 3⟩ : Vec3) = ⟨1, 2, 3⟩ := by
  have h := c7_identity_conversion ⟨1, 2, 3⟩ ⟨2, 4, 6, 2⟩ id id
  exact ⟨h.2.2.1 (by norm_num : (2 : ℚ) ≠ 0), h.2.2.2 (fun u => rfl)⟩

/-- Counterexample for claim C8: the byte mapping of
`src/details/encodings.rs` is `(x.clamp(0,1) * 255) as u8`, a truncation —
at the float component `0.5` it produces `127`, whereas the claimed
mapping `round(clamp(x,0,1)*255)` produces `128`. -/
theorem c8_counterexample :
    Details.f32_to_u8 (1/2) = 127 ∧
    round (Details.clamp (1/2) 0 1 * 255) = 128 ∧
    (127 : ℤ) ≠ 128 := by
  refine ⟨?_, ?_, by norm_num⟩
  · norm_num [Details.f32_to_u8, Details.clamp]
    rfl
  · norm_num [Details.clamp, round_eq]

/-- Claim C8, amended: for the byte-valued `SrgbU8` encoding, each input
byte component `x` maps to the float `x / 255` before the source
transform, and each output float component maps back to a byte as
`trunc(clamp(x,0,1) * 255)` — truncation toward zero (the Rust `as u8`
cast), not rounding — after the destination transform. -/
theorem c8_u8_byte_maps (eotf oetf : Vec3 → Vec3) (repr : Details.U8Repr)
    (raw : Vec3) (a : ℚ) :
    (Details.SrgbU8 eotf oetf).src_transform_raw repr =
      (eotf ⟨(repr.x : ℚ) / 255, (repr.y : ℚ) / 255, (repr.z : ℚ) / 255⟩, 1) ∧
    (Details.SrgbU8 eotf oetf).dst_transform_raw raw a =
      ⟨(Int.floor (min (max (oetf raw).x 0) 1 * 255)).toNat,
       (Int.floor (min (max (oetf raw).y 0) 1 * 255)).toNat,
       (Int.floor (min (max (oetf raw).z 0) 1 * 255)).toNat⟩ :=
  ⟨rfl, rfl⟩

/-- Claim C9: evaluation of the baked Lottes curve at its own parameters
refutes the gray-point property. With contrast `a = 1`, shoulder `d = 1`,
`max_luminance = 10`, `gray_point_in = 1/2`, and `gray_point_out = 1/4`
(so that the only facts needed about the external `powf` are
`powf x 1 = x`, which holds exactly for IEEE `powf` as well), the curve
maps `gray_point_in` to `39/172 ≈ 0.2267`, not to `gray_point_out = 1/4`
— an error of about `0.023`, far outside any epsilon — while
`max_luminance` still maps exactly to `1`. The cause is that the baking
computes `gi_ad` from `gray_point_out` where the Lottes closed form (and
the variable's own name, parallel to `gi_a = gray_point_in.powf(a)`)
requires `gray_point_in.powf(a * d)`. -/
theorem c9_lottes_gray_point_eval (powf : ℚ → ℚ → ℚ) (hpow : ∀ x : ℚ, powf x 1 = x) :
    LottesTonemapper.tonemap_inner powf (1/2)
        (bakeLottesTonemapperParams powf ⟨1, 1, 10, 1/2, 1/4, 1, 1, 1⟩) = 39/172 ∧
    LottesTonemapper.tonemap_inner powf 10
        (bakeLottesTonemapperParams powf ⟨1, 1, 10, 1/2, 1/4, 1, 1, 1⟩) = 1 ∧
    (39/172 : ℚ) ≠ 1/4 := by
  refine ⟨?_, ?_, by norm_num⟩
  · simp only [LottesTonemapper.tonemap_inner, bakeLottesTonemapperParams]
    norm_num [hpow]
  · simp only [LottesTonemapper.tonemap_inner, bakeLottesTonemapperParams]
    norm_num [hpow]

/-- Witness for claim C9, instantiating the abstract power function with a
concrete one satisfying `powf x 1 = x`. -/
theorem c9_witness :
    LottesTonemapper.tonemap_inner (fun x _ => x) (1/2)
        (bakeLottesTonemapperParams (fun x _ => x) ⟨1, 1, 10, 1/2, 1/4, 1, 1, 1⟩) =
      39/172 :=
  (c9_lottes_gray_point_eval (fun x _ => x) (fun _ => rfl)).1

end Colstodian
